import Mathlib

/-!
# Verification of the unstructured-mesh geometry engine (xpublish-wms fork)

Shallow embedding, over `ℚ`-valued coordinate and field arrays, of the grid
code in `src/xpublish_wms/grids/fvcom.py`, `src/xpublish_wms/grids/triangular.py`
and `src/xpublish_wms/utils.py`.

Conventions of the embedding:
* numpy arrays become `List ℚ` (1-d) or `List (List ℚ)` (2-d, row major);
* a NaN produced by `np.full(shape, np.nan)` becomes `Option.none`
  (values are `Option ℚ`, `some` for finite data);
* fallible numpy indexing (`IndexError`) becomes an `Option` result;
* the FVCOM connectivity variable `nv` is stored the way every other use in
  the code requires it — shape `(3, nele)`, three vertex-slot rows — which is
  also the layout `tessellate` transposes (`nv.T - 1`) into triangle triples;
* `lat_lng_find_tri`, `lat_lng_find_tri_ind` and `barycentric_weights` are
  imported by the grid modules from `xpublish_wms.utils` but are absent from
  that file; they are modelled from the spec where indicated.
-/

/-- `np.min` over a rational list (datasets are nonempty; empty default 0). -/
def listMin : List ℚ → ℚ
  | [] => 0
  | x :: xs => xs.foldl min x

/-- `np.max` over a rational list (datasets are nonempty; empty default 0). -/
def listMax : List ℚ → ℚ
  | [] => 0
  | x :: xs => xs.foldl max x

/-- Embeds `FVCOMGrid.sel_lat_lng_node` lines 203-206: the query longitude is
shifted by +360 when `lng < 0 and np.min(lng_values) > 0`, by -360 when
`lng > 180 and np.min(lng_values) < 0`, and is otherwise left unchanged. -/
def normLngNode (lng : ℚ) (lngVals : List ℚ) : ℚ :=
  if lng < 0 ∧ 0 < listMin lngVals then lng + 360
  else if 180 < lng ∧ listMin lngVals < 0 then lng - 360
  else lng

/-- Embeds `FVCOMGrid.sel_lat_lng_nele` lines 265-268 and
`TriangularGrid.sel_lat_lng` lines 76-79: +360 when
`lng < 0 and np.max(lng_values) > 180`, -360 when
`lng > 180 and np.min(lng_values) < 0`, otherwise unchanged. -/
def normLngNele (lng : ℚ) (lngVals : List ℚ) : ℚ :=
  if lng < 0 ∧ 180 < listMax lngVals then lng + 360
  else if 180 < lng ∧ listMin lngVals < 0 then lng - 360
  else lng

/-- Modelled from the spec (claim C8 wording) for the node path: "if the query
longitude is < 0 and the dataset's longitude coordinates are never negative,
360 is added" — i.e. the first branch fires whenever `0 ≤ min lngVals`. -/
def claimNormLngNode (lng : ℚ) (lngVals : List ℚ) : ℚ :=
  if lng < 0 ∧ 0 ≤ listMin lngVals then lng + 360
  else if 180 < lng ∧ listMin lngVals < 0 then lng - 360
  else lng

/-- A vertical coordinate variable as stored in the dataset: a named list of
dimensions and a 2-d value array whose rows are indexed by the first
dimension and whose columns are indexed by the second. -/
structure VertCoord where
  dims : List String
  vals : List (List ℚ)
  deriving DecidableEq, Repr

/-- Embeds `FVCOMGrid.elevations` / `TriangularGrid.elevations`:
`da.cf["vertical"][:, 0]` — index 0 of the second stored dimension,
whatever that dimension is. -/
def elevationsVC (c : VertCoord) : List ℚ :=
  c.vals.map (fun r => r.getD 0 0)

/-- Modelled from the spec (claim C9 wording): "the vertical coordinate values
taken at time index 0" — the slice of the value array at index 0 of the
dimension named "time" (row 0 when time is the first dimension, column 0
when it is the second). -/
def timeZeroVals (c : VertCoord) : List ℚ :=
  if c.dims.getD 0 "" = "time" then c.vals.getD 0 []
  else c.vals.map (fun r => r.getD 0 0)

/-- A vertical coordinate stored with the time dimension first: time index 0
is row 0, while the code takes column 0. -/
def vcTimeFirst : VertCoord :=
  { dims := ["time", "sigma"], vals := [[1, 2], [3, 4]] }

/-- Embeds `np.absolute(da_elevations - elevation).argmin()`: the index of the
first (lowest-index) element of `l` minimizing `|value - t|`. -/
def argminAbs (t : ℚ) : List ℚ → ℕ
  | [] => 0
  | [_] => 0
  | x :: y :: ys =>
    if |(y :: ys).getD (argminAbs t (y :: ys)) 0 - t| < |x - t| then
      argminAbs t (y :: ys) + 1
    else 0

/-- The selection returned by `select_by_elevation`, as it acts on the
vertical dimension: `unchanged` when the field has no elevation concept,
`point` when `da.cf.isel(vertical=<scalar>)` dropped the vertical dimension,
`levels` when `da.cf.isel(vertical=<list>)` kept a vector of levels. -/
inductive ElevSelection where
  | unchanged : ElevSelection
  | point (vals : List ℚ) : ElevSelection
  | levels (valsByLevel : List (List ℚ)) : ElevSelection
  deriving DecidableEq, Repr

/-- A field with (or without) a vertical axis: `elevs` is `elevations(da)`
and `dataByLevel` holds the field values for each vertical index. -/
structure ElevDA where
  hasVertical : Bool
  elevs : List ℚ
  dataByLevel : List (List ℚ)
  deriving DecidableEq, Repr

/-- Sequence a list of optional floats; `none` marks a null mixed in with
real values, on which the numpy subtraction in the source would raise. -/
def optionAll : List (Option ℚ) → Option (List ℚ)
  | [] => some []
  | none :: _ => none
  | some x :: xs => (optionAll xs).map (x :: ·)

/-- Embeds the defaulting guard shared by `FVCOMGrid.select_by_elevation`
(lines 308-313) and `TriangularGrid.select_by_elevation` (lines 140-145):
a `None`, empty, or all-`None` request list becomes `[0.0]`. -/
def defaultedElevs (reqs : Option (List (Option ℚ))) : List (Option ℚ) :=
  match reqs with
  | none => [some 0]
  | some l => if l = [] ∨ l.all Option.isNone = true then [some 0] else l

/-- Embeds `select_by_elevation` (identical logic in both grid variants):
no-op without an elevation concept; otherwise nearest vertical index per
requested elevation, collapsed to a scalar exactly when one elevation was
requested. -/
def select_by_elevation (da : ElevDA) (reqs : Option (List (Option ℚ))) :
    Option ElevSelection :=
  if da.hasVertical = false then some .unchanged
  else
    match optionAll (defaultedElevs reqs) with
    | none => none
    | some es =>
      let idx := es.map (fun e => argminAbs e da.elevs)
      some (if idx.length = 1 then .point (da.dataByLevel.getD (idx.getD 0 0) [])
            else .levels (idx.map (fun i => da.dataByLevel.getD i [])))

/-- The per-dataset FVCOM variables the grid methods read from `self.ds`:
node coordinates `lon`/`lat`, connectivity `nv` in its stored FVCOM layout
`(3, nele)` (three vertex-slot rows of 1-based node indices — the layout
`tessellate` turns into triangles via `nv.T - 1`), the per-node element
count `ntve`, and the node-to-element adjacency `nbve` with rows indexed by
neighbor slot and columns by node (0 is the unused-slot sentinel). -/
structure FVCOMDs where
  lon : List ℚ
  lat : List ℚ
  nv : List (List Int)
  ntve : List ℚ
  nbve : List (List Int)
  deriving DecidableEq, Repr

/-- A node-resident array's coordinate view (its `cf` longitude/latitude). -/
structure NodeDA where
  lon : List ℚ
  lat : List ℚ
  deriving DecidableEq, Repr

/-- A bounding box `(minX, minY, maxX, maxY)` already in geographic
coordinates (the EPSG:3857 corner conversion is upstream of the claims). -/
structure BBox where
  x0 : ℚ
  y0 : ℚ
  x1 : ℚ
  y1 : ℚ
  deriving DecidableEq, Repr

/-- Embeds `FVCOMGrid.filter_by_bbox` lines 480-484 (also `project`
lines 416-420): -360 when any longitude exceeds 180, +360 when any is
below -180, else 0. -/
def adjustLng (lng : List ℚ) : ℚ :=
  if listMin lng < -180 then 360
  else if 180 < listMax lng then -360
  else 0

/-- `np.where((v >= lo) & (v <= hi))[0]`: the (sorted) indices in range. -/
def inRangeIdx (v : List ℚ) (lo hi : ℚ) : List ℕ :=
  (List.range v.length).filter (fun i => decide (lo ≤ v.getD i 0 ∧ v.getD i 0 ≤ hi))

/-- Embeds the node selection of `filter_by_bbox` lines 486-492: shifted
longitudes and latitudes tested independently, `np.intersect1d` of the two
index sets. -/
def bboxSelectedNodes (lng lat : List ℚ) (b : BBox) : List ℕ :=
  let x := inRangeIdx (lng.map (fun v => v + adjustLng lng)) b.x0 b.x1
  let y := inRangeIdx lat b.y0 b.y1
  x.filter (fun i => decide (i ∈ y))

/-- Embeds `e[np.any(np.isin(e.flat, e_ind).reshape(e.shape), axis=1)]`:
keep the rows of the stored `nv` array that contain at least one selected
(1-based) node index. With `nv` stored `(3, nele)` these rows are vertex
slots, not elements. -/
def keptRows (nv : List (List Int)) (eInd : List Int) : List (List Int) :=
  nv.filter (fun row => row.any (fun v => decide (v ∈ eInd)))

def insertSortedInt (x : Int) : List Int → List Int
  | [] => [x]
  | y :: ys => if x ≤ y then x :: y :: ys else y :: insertSortedInt x ys

def dedupSorted : List Int → List Int
  | [] => []
  | [x] => [x]
  | x :: y :: ys => if x = y then dedupSorted (y :: ys) else x :: dedupSorted (y :: ys)

/-- `np.unique`: sorted distinct values. -/
def sortedUniqueInt (l : List Int) : List Int :=
  dedupSorted (l.foldr insertSortedInt [])

def idxOfInt (v : Int) : List Int → ℕ
  | [] => 0
  | x :: xs => if x = v then 0 else idxOfInt v xs + 1

/-- `scipy.stats.rankdata(flat, method="dense")`: 1-based dense rank. -/
def rankDense (flat : List Int) (v : Int) : ℕ :=
  idxOfInt v (sortedUniqueInt flat) + 1

/-- `rankdata(node_ind_flat, method="dense").reshape(e.shape)`. -/
def normNvOf (rows : List (List Int)) : List (List ℕ) :=
  rows.map (fun r => r.map (rankDense rows.flatten))

/-- `da.isel(node=idx)` on a 1-d array; `none` models the `IndexError` numpy
raises on an out-of-range index. -/
def iselQ (v : List ℚ) : List ℕ → Option (List ℚ)
  | [] => some []
  | i :: is =>
    match v.get? i, iselQ v is with
    | some x, some xs => some (x :: xs)
    | _, _ => none

/-- What `FVCOMGrid.filter_by_bbox` produces for a node-resident input: the
node-sliced array, the retained 0-based node indices
(`np.unique(e.flat) - 1`), the surviving rows of `nv`, and the densely
renumbered connectivity stored into `render_context["nv"]`. -/
structure FilterResult where
  da : NodeDA
  nodeIndUnique : List ℕ
  keptE : List (List Int)
  normNv : List (List ℕ)
  deriving DecidableEq, Repr

/-- The part of `filter_by_bbox` after node selection: convert the selected
indices to the 1-based convention, keep the rows of `nv` containing a
selected index, renumber, and slice the array to `np.unique(e.flat) - 1`. -/
def filterAfterSel (ds : FVCOMDs) (da : NodeDA) (sel : List ℕ) :
    Option FilterResult :=
  let eInd : List Int := sel.map (fun i => (i : Int) + 1)
  let e := keptRows ds.nv eInd
  let uniq : List ℕ := (sortedUniqueInt e.flatten).map (fun v => (v - 1).toNat)
  match iselQ da.lon uniq, iselQ da.lat uniq with
  | some lon2, some lat2 => some ⟨⟨lon2, lat2⟩, uniq, e, normNvOf e⟩
  | _, _ => none

/-- Embeds `FVCOMGrid.filter_by_bbox` lines 477-508 for a node-resident
array with a geographic bbox. -/
def fvcom_filter_by_bbox (ds : FVCOMDs) (da : NodeDA) (b : BBox) :
    Option FilterResult :=
  filterAfterSel ds da (bboxSelectedNodes da.lon da.lat b)

/-- Embeds `TriangularGrid.filter_by_bbox` lines 208-235: the whole body is
commented out, so the input is returned unchanged. -/
def triangular_filter_by_bbox (da : NodeDA) (_b : BBox) : NodeDA := da

/-- The stored `(3, nele)` connectivity as element triples (`nv.T`). -/
def nvTriples (nv : List (List Int)) : List (List Int) :=
  match nv with
  | [r1, r2, r3] =>
    (List.range r1.length).map (fun i => [r1.getD i 0, r2.getD i 0, r3.getD i 0])
  | _ => []

/-- Modelled from the spec (4.5 steps 5-6, claim C1): keep every *element*
(triple of the connectivity) referencing at least one selected 1-based node
index, then retain the sorted deduplicated 0-based node indices of the kept
elements. -/
def claimRetainedAfterSel (ds : FVCOMDs) (sel : List ℕ) : List ℕ :=
  let eInd : List Int := sel.map (fun i => (i : Int) + 1)
  let kept := (nvTriples ds.nv).filter (fun row => row.any (fun v => decide (v ∈ eInd)))
  (sortedUniqueInt kept.flatten).map (fun v => (v - 1).toNat)

def claimRetainedNodes (ds : FVCOMDs) (da : NodeDA) (b : BBox) : List ℕ :=
  claimRetainedAfterSel ds (bboxSelectedNodes da.lon da.lat b)

/-- Four nodes at longitudes 0,10,20,30 (latitude 0), two elements
`(1,2,3)` and `(2,3,4)` stored as the three vertex-slot rows of `nv`. -/
def meshC1 : FVCOMDs :=
  { lon := [0, 10, 20, 30], lat := [0, 0, 0, 0],
    nv := [[1, 2], [2, 3], [3, 4]],
    ntve := [1, 2, 2, 1],
    nbve := [[1, 1, 1, 2], [0, 2, 2, 0]] }

def daC1 : NodeDA := { lon := [0, 10, 20, 30], lat := [0, 0, 0, 0] }

/-- The bbox `[25,-1]x[35,1]` selecting only node index 3 (1-based 4). -/
def bC1 : BBox := { x0 := 25, y0 := -1, x1 := 35, y1 := 1 }

/-- Five nodes at longitudes 0..40 (latitude 0), two elements `(1,2,3)` and
`(3,4,5)` stored as the three vertex-slot rows of `nv`. -/
def meshC10 : FVCOMDs :=
  { lon := [0, 10, 20, 30, 40], lat := [0, 0, 0, 0, 0],
    nv := [[1, 3], [2, 4], [3, 5]],
    ntve := [1, 1, 2, 1, 1],
    nbve := [[1, 1, 1, 2, 2], [0, 0, 2, 0, 0]] }

def daC10 : NodeDA := { lon := [0, 10, 20, 30, 40], lat := [0, 0, 0, 0, 0] }

def bC10 : BBox := { x0 := 25, y0 := -1, x1 := 45, y1 := 1 }

def daC10Second : NodeDA := { lon := [10, 20, 30, 40], lat := [0, 0, 0, 0] }

/-- The `render_context` dict threaded through
`filter_by_bbox` → `project` → `tessellate`, with one optional field per
key the FVCOM grid writes or reads ("masked", "nv", "ntve", "nbve",
"lng", "lat"; "tri_x"/"tri_y" are write-only downstream products). -/
structure RenderCtx where
  masked : Bool
  nv : Option (List (List ℕ))
  ntve : Option (List ℚ)
  nbve : Option (List (List Int))
  lng : Option (List ℚ)
  lat : Option (List ℚ)
  deriving DecidableEq, Repr

/-- The value of `filter_by_bbox`'s default argument `render_context=dict()`
at function-definition time: Python evaluates the `dict()` once, so every
call that omits `render_context` receives — and mutates — this same object. -/
def emptyRenderCtx : RenderCtx :=
  { masked := false, nv := none, ntve := none, nbve := none,
    lng := none, lat := none }

/-- Total `isel` used where the code's indices are in range. -/
def iselQD (v : List ℚ) (idx : List ℕ) : List ℚ :=
  idx.map (fun i => v.getD i 0)

/-- The render-context writes `FVCOMGrid.filter_by_bbox` performs for an
element-resident (`nele`) input, lines 467-504: set "masked" and "nv", and
slice `ntve`, `nbve`, `lon`, `lat` to the retained node subset. `ctx` is the
dict object the call received (the shared default when omitted). -/
def filterCtxNeleAfterSel (ds : FVCOMDs) (sel : List ℕ) (ctx : RenderCtx) :
    RenderCtx :=
  let eInd : List Int := sel.map (fun i => (i : Int) + 1)
  let e := keptRows ds.nv eInd
  let uniq : List ℕ := (sortedUniqueInt e.flatten).map (fun v => (v - 1).toNat)
  { ctx with
    masked := true,
    nv := some (normNvOf e),
    ntve := some (iselQD ds.ntve uniq),
    nbve := some (ds.nbve.map (fun row => uniq.map (fun i => row.getD i 0))),
    lng := some (iselQD ds.lon uniq),
    lat := some (iselQD ds.lat uniq) }

def fvcom_filter_ctx_nele (ds : FVCOMDs) (b : BBox) (ctx : RenderCtx) :
    RenderCtx :=
  filterCtxNeleAfterSel ds (bboxSelectedNodes ds.lon ds.lat b) ctx

/-- The render-context writes `FVCOMGrid.filter_by_bbox` performs for a
node-resident input, lines 467-498 and 505-506: only "masked" and "nv" are
written; any entries already in the received dict stay. -/
def filterCtxNodeAfterSel (ds : FVCOMDs) (sel : List ℕ) (ctx : RenderCtx) :
    RenderCtx :=
  let eInd : List Int := sel.map (fun i => (i : Int) + 1)
  let e := keptRows ds.nv eInd
  { ctx with masked := true, nv := some (normNvOf e) }

def fvcom_filter_ctx_node (ds : FVCOMDs) (da : NodeDA) (b : BBox)
    (ctx : RenderCtx) : RenderCtx :=
  filterCtxNodeAfterSel ds (bboxSelectedNodes da.lon da.lat b) ctx

def daC2 : NodeDA := { lon := [0, 10], lat := [0, 0] }

def bC2 : BBox := { x0 := -1, y0 := -1, x1 := 5, y1 := 5 }

/-- 2-d cross-product sign of point `(px,py)` against edge
`(x1,y1)→(x2,y2)`. -/
def triSide (px py x1 y1 x2 y2 : ℚ) : ℚ :=
  (x2 - x1) * (py - y1) - (y2 - y1) * (px - x1)

/-- Point-in-triangle test, boundary included: all edge signs agree. -/
def pointInTriQ (px py x1 y1 x2 y2 x3 y3 : ℚ) : Bool :=
  let d1 := triSide px py x1 y1 x2 y2
  let d2 := triSide px py x2 y2 x3 y3
  let d3 := triSide px py x3 y3 x1 y1
  decide ((0 ≤ d1 ∧ 0 ≤ d2 ∧ 0 ≤ d3) ∨ (d1 ≤ 0 ∧ d2 ≤ 0 ∧ d3 ≤ 0))

def firstIdxTrue : List Bool → Option ℕ
  | [] => none
  | true :: _ => some 0
  | false :: xs => (firstIdxTrue xs).map (· + 1)

/-- Modelled from the spec (4.6, point-in-triangle search):
`lat_lng_find_tri_ind` is imported from `xpublish_wms.utils` but absent from
that file — "return the index ... of the first triangle whose interior
(including boundary) contains the point, or not found". -/
def lat_lng_find_tri_ind (lng lat : ℚ) (lons lats : List ℚ)
    (tris : List (ℕ × ℕ × ℕ)) : Option ℕ :=
  firstIdxTrue (tris.map (fun t =>
    pointInTriQ lng lat (lons.getD t.1 0) (lats.getD t.1 0)
      (lons.getD t.2.1 0) (lats.getD t.2.1 0)
      (lons.getD t.2.2 0) (lats.getD t.2.2 0)))

/-- Modelled from the spec (4.6): the node triple of the first containing
triangle (`FVCOMGrid.sel_lat_lng_node` indexes `valid_tri[0..2]` as node
indices). -/
def lat_lng_find_tri (lng lat : ℚ) (lons lats : List ℚ)
    (tris : List (ℕ × ℕ × ℕ)) : Option (ℕ × ℕ × ℕ) :=
  (lat_lng_find_tri_ind lng lat lons lats tris).map (fun i => tris.getD i (0, 0, 0))

/-- Modelled from the spec (4.6, barycentric weights): the standard 2-d
barycentric solve; weights sum to 1. -/
def barycentric_weights (px py x1 y1 x2 y2 x3 y3 : ℚ) : ℚ × ℚ × ℚ :=
  let det := (y2 - y3) * (x1 - x3) + (x3 - x2) * (y1 - y3)
  let w1 := ((y2 - y3) * (px - x3) + (x3 - x2) * (py - y3)) / det
  let w2 := ((y3 - y1) * (px - x3) + (x1 - x3) * (py - y3)) / det
  (w1, w2, 1 - w1 - w2)

/-- Embeds `FVCOMGrid.tessellate`: `nv.T - 1` as 0-based triangle triples
(the node branch's `matplotlib.tri.Triangulation(x, y, nv.T - 1).triangles`
returns the supplied triangles unchanged). -/
def fvcom_tessellate (ds : FVCOMDs) : List (ℕ × ℕ × ℕ) :=
  (nvTriples ds.nv).map (fun r =>
    ((r.getD 0 0 - 1).toNat, (r.getD 1 0 - 1).toNat, (r.getD 2 0 - 1).toNat))

/-- Embeds the neighbor averaging of `FVCOMGrid.sel_lat_lng_node` lines
134-142 (and `project` lines 378-379) for one extra-dimension slice of an
element-resident variable: per node `n`, sum the values of the elements in
`nbve[:, n]` over the slots where `nbve > 0`, divided by `ntve[n]`. -/
def reconcileRow (ds : FVCOMDs) (row : List ℚ) : List ℚ :=
  (List.range ds.lon.length).map (fun n =>
    (ds.nbve.map (fun slot =>
      if 0 < slot.getD n 0 then row.getD (slot.getD n 0 - 1).toNat 0 else 0)).sum
      / ds.ntve.getD n 0)

/-- The claim's reading of the same computation: the values of the valid
(non-sentinel, index > 0) neighbor slots of node `n`. -/
def validNeighborVals (ds : FVCOMDs) (row : List ℚ) (n : ℕ) : List ℚ :=
  ((ds.nbve.map (fun slot => slot.getD n 0)).filter (fun k => decide (0 < k))).map
    (fun k => row.getD (k - 1).toNat 0)

/-- The dataset subset handed to `sel_lat_lng_node`: whether the subset has
an `nele` dimension (the branch condition at line 120), and the requested
parameters' values, one outer entry per parameter, one middle entry per
remaining extra-dimension index, inner axis node- (or element-) indexed. -/
structure NodeSubset where
  hasNele : Bool
  params : List (List (List ℚ))
  deriving DecidableEq, Repr

/-- Embeds the `temp_arrays` loop of `sel_lat_lng_node` lines 116-147:
element-resident data is averaged onto nodes, otherwise the parameter is
copied unchanged. -/
def nodeTempArrays (ds : FVCOMDs) (sub : NodeSubset) : List (List (List ℚ)) :=
  if sub.hasNele then
    sub.params.map (fun p => p.map (fun row => reconcileRow ds row))
  else sub.params

/-- The single-point dataset `sel_lat_lng*` returns: the final
longitude/latitude coordinate values and the per-parameter values at the
query point (`none` is NaN), one inner entry per extra-dimension index. -/
structure PointResult where
  lngCoord : ℚ
  latCoord : ℚ
  vals : List (List (Option ℚ))
  deriving DecidableEq, Repr

/-- Embeds `FVCOMGrid.sel_lat_lng_node` lines 109-253: reconcile
element-resident parameters, overwrite the single point's coordinates with
the query coordinates as supplied (lines 183-198, before the longitude is
normalized), then either fill every parameter with NaN (no containing
triangle) or interpolate with barycentric weights. Total: a geometric miss
returns normally. -/
def sel_lat_lng_node (ds : FVCOMDs) (sub : NodeSubset) (lng lat : ℚ) :
    PointResult :=
  match lat_lng_find_tri (normLngNode lng ds.lon) lat ds.lon ds.lat
      (fvcom_tessellate ds) with
  | none =>
    { lngCoord := lng, latCoord := lat,
      vals := (nodeTempArrays ds sub).map (fun p => p.map (fun _ => none)) }
  | some t =>
    let w := barycentric_weights (normLngNode lng ds.lon) lat
      (ds.lon.getD t.1 0) (ds.lat.getD t.1 0)
      (ds.lon.getD t.2.1 0) (ds.lat.getD t.2.1 0)
      (ds.lon.getD t.2.2 0) (ds.lat.getD t.2.2 0)
    { lngCoord := lng, latCoord := lat,
      vals := (nodeTempArrays ds sub).map (fun p => p.map (fun row =>
        some (row.getD t.1 0 * w.1 + row.getD t.2.1 0 * w.2.1 +
          row.getD t.2.2 0 * w.2.2))) }

/-- The element-indexed subset handed to `sel_lat_lng_nele`: per-element
coordinates (`lonc`/`latc`) and parameter values, inner axis `nele`. -/
structure NeleSubset where
  lonc : List ℚ
  latc : List ℚ
  params : List (List (List ℚ))
  deriving DecidableEq, Repr

/-- Embeds `FVCOMGrid.sel_lat_lng_nele` lines 255-297: locate the containing
element and take `subset.isel(nele=<hit>)` verbatim (element 0 with NaN
values on a miss). The result's coordinates are the selected element's own
`lonc`/`latc` — the code never overwrites them with the query point. -/
def sel_lat_lng_nele (ds : FVCOMDs) (sub : NeleSubset) (lng lat : ℚ) :
    PointResult :=
  match lat_lng_find_tri_ind (normLngNele lng ds.lon) lat ds.lon ds.lat
      (fvcom_tessellate ds) with
  | none =>
    { lngCoord := sub.lonc.getD 0 0, latCoord := sub.latc.getD 0 0,
      vals := sub.params.map (fun p => p.map (fun _ => none)) }
  | some i =>
    { lngCoord := sub.lonc.getD i 0, latCoord := sub.latc.getD i 0,
      vals := sub.params.map (fun p => p.map (fun row => some (row.getD i 0))) }

/-- The per-dataset variables of the generic triangular grid: node
coordinates and the `(nele, 3)` 1-based `element` connectivity. -/
structure TriDs where
  lon : List ℚ
  lat : List ℚ
  element : List (List Int)
  deriving DecidableEq, Repr

/-- Embeds `TriangularGrid.tessellate`: `element - 1` as triangle triples. -/
def triangular_tessellate (ds : TriDs) : List (ℕ × ℕ × ℕ) :=
  ds.element.map (fun r =>
    ((r.getD 0 0 - 1).toNat, (r.getD 1 0 - 1).toNat, (r.getD 2 0 - 1).toNat))

/-- Embeds `TriangularGrid.sel_lat_lng` lines 63-129. The result coordinates
are node 0's (`subset.isel(node=0)`, never overwritten); on a hit the code
indexes `lng_values` with the raw 1-based `element` row (no `- 1`),
reproduced faithfully here. -/
def sel_lat_lng_tri (ds : TriDs) (params : List (List (List ℚ)))
    (lng lat : ℚ) : PointResult :=
  match lat_lng_find_tri_ind (normLngNele lng ds.lon) lat ds.lon ds.lat
      (triangular_tessellate ds) with
  | none =>
    { lngCoord := ds.lon.getD 0 0, latCoord := ds.lat.getD 0 0,
      vals := params.map (fun p => p.map (fun _ => none)) }
  | some i =>
    let ve := ds.element.getD i []
    let a := (ve.getD 0 0).toNat
    let b := (ve.getD 1 0).toNat
    let c := (ve.getD 2 0).toNat
    let w := barycentric_weights (normLngNele lng ds.lon) lat
      (ds.lon.getD a 0) (ds.lat.getD a 0) (ds.lon.getD b 0) (ds.lat.getD b 0)
      (ds.lon.getD c 0) (ds.lat.getD c 0)
    { lngCoord := ds.lon.getD 0 0, latCoord := ds.lat.getD 0 0,
      vals := params.map (fun p => p.map (fun row =>
        some (row.getD a 0 * w.1 + row.getD b 0 * w.2.1 + row.getD c 0 * w.2.2))) }

/-- One triangle `(0,0)-(1,0)-(0,1)` as an FVCOM dataset. -/
def dsC3 : FVCOMDs :=
  { lon := [0, 1, 0], lat := [0, 0, 1], nv := [[1], [2], [3]],
    ntve := [1, 1, 1], nbve := [[1, 1, 1]] }

/-- An element-indexed subset over `dsC3`: element coordinates `(100, 50)`. -/
def esubC3 : NeleSubset := { lonc := [100], latc := [50], params := [[[7]]] }

/-- The same triangle as a generic triangular-grid dataset. -/
def tdsC4 : TriDs := { lon := [0, 1, 0], lat := [0, 0, 1], element := [[1, 2, 3]] }

/-- C8 counterexample: with dataset longitudes `[0, 10]` — which are never
negative — and query longitude -5, the node-path code leaves the longitude
unchanged (`np.min > 0` is false at 0), while the claim's wording demands
-5 + 360 = 355. -/
theorem c8_counterexample :
    normLngNode (-5) [0, 10] = -5 ∧ claimNormLngNode (-5) [0, 10] = 355 := by
  refine ⟨by decide, ?_⟩
  norm_num [claimNormLngNode, listMin]

/-- C8 (amended): the node path adds 360 exactly when the query longitude is
negative and the dataset's minimum longitude is strictly positive, subtracts
360 exactly when the query longitude exceeds 180 and the dataset has negative
longitudes, and otherwise leaves the query longitude unchanged; the FVCOM
element-resident and TriangularGrid paths use the `max(lng) > 180` test for
the first branch, as the claim states. -/
theorem c8_longitude_normalization (lng : ℚ) (lngVals : List ℚ) :
    ((lng < 0 ∧ 0 < listMin lngVals) → normLngNode lng lngVals = lng + 360) ∧
    ((180 < lng ∧ listMin lngVals < 0) → normLngNode lng lngVals = lng - 360) ∧
    (¬(lng < 0 ∧ 0 < listMin lngVals) → ¬(180 < lng ∧ listMin lngVals < 0) →
      normLngNode lng lngVals = lng) ∧
    ((lng < 0 ∧ 180 < listMax lngVals) → normLngNele lng lngVals = lng + 360) ∧
    ((180 < lng ∧ listMin lngVals < 0) → normLngNele lng lngVals = lng - 360) ∧
    (¬(lng < 0 ∧ 180 < listMax lngVals) → ¬(180 < lng ∧ listMin lngVals < 0) →
      normLngNele lng lngVals = lng) := by
  unfold normLngNode normLngNele
  refine ⟨fun h => ?_, fun h => ?_, fun h1 h2 => ?_, fun h => ?_, fun h => ?_,
    fun h1 h2 => ?_⟩
  · rw [if_pos h]
  · rw [if_neg, if_pos h]
    rintro ⟨hq, -⟩
    linarith [h.1, hq]
  · rw [if_neg h1, if_neg h2]
  · rw [if_pos h]
  · rw [if_neg, if_pos h]
    rintro ⟨hq, -⟩
    linarith [h.1, hq]
  · rw [if_neg h1, if_neg h2]

/-- C8 witness: at query longitude -5 with dataset longitudes `[10, 20]`
(minimum strictly positive), the node path adds 360. -/
theorem c8_longitude_normalization_witness :
    normLngNode (-5) [10, 20] = -5 + 360 :=
  (c8_longitude_normalization (-5) [10, 20]).1 (by constructor <;> decide)

/-- C9 counterexample: a vertical coordinate stored `(time, sigma)` with
values `[[1,2],[3,4]]` has a time dimension, but the code's `[:, 0]` slice
returns `[1, 3]` (sigma level 0 across time), not the values at time index 0,
which are `[1, 2]`. -/
theorem c9_counterexample :
    "time" ∈ vcTimeFirst.dims ∧
    elevationsVC vcTimeFirst = [1, 3] ∧
    timeZeroVals vcTimeFirst = [1, 2] ∧
    elevationsVC vcTimeFirst ≠ timeZeroVals vcTimeFirst := by
  refine ⟨by decide, by decide, by decide, by decide⟩

/-- C9 (amended): `elevations` returns index 0 of the vertical coordinate's
second stored dimension; this equals the values taken at time index 0
exactly when the time dimension is stored second (vertical first). -/
theorem c9_elevations_time_zero (c : VertCoord)
    (h1 : c.dims.getD 1 "" = "time") (h2 : c.dims.getD 0 "" ≠ "time") :
    elevationsVC c = timeZeroVals c := by
  unfold elevationsVC timeZeroVals
  rw [if_neg h2]

/-- C9 witness: for a vertical coordinate stored `(sigma, time)`, the code's
`[:, 0]` slice is the time-index-0 slice. -/
theorem c9_elevations_time_zero_witness :
    elevationsVC { dims := ["sigma", "time"], vals := [[1, 2], [3, 4]] } =
      timeZeroVals { dims := ["sigma", "time"], vals := [[1, 2], [3, 4]] } :=
  c9_elevations_time_zero _ (by decide) (by decide)

theorem argminAbs_spec (t : ℚ) :
    ∀ l : List ℚ, l ≠ [] →
      argminAbs t l < l.length ∧
      (∀ j < l.length, |l.getD (argminAbs t l) 0 - t| ≤ |l.getD j 0 - t|) ∧
      (∀ j < argminAbs t l, |l.getD (argminAbs t l) 0 - t| < |l.getD j 0 - t|) := by
  intro l
  induction l with
  | nil => intro h; exact absurd rfl h
  | cons x xs ih =>
    intro _
    cases xs with
    | nil =>
      refine ⟨by simp [argminAbs], ?_, ?_⟩
      · intro j hj
        have hj0 : j = 0 := by
          simpa [Nat.lt_one_iff] using hj
        simp [argminAbs, hj0]
      · intro j hj
        simp [argminAbs] at hj
    | cons y ys =>
      obtain ⟨ih1, ih2, ih3⟩ := ih (by simp)
      by_cases hc : |(y :: ys).getD (argminAbs t (y :: ys)) 0 - t| < |x - t|
      · have heq : argminAbs t (x :: y :: ys) = argminAbs t (y :: ys) + 1 := by
          simp only [argminAbs]
          rw [if_pos hc]
        rw [heq]
        refine ⟨by simpa using Nat.succ_lt_succ ih1, ?_, ?_⟩
        · intro j hj
          cases j with
          | zero => simpa using le_of_lt hc
          | succ k =>
            simp only [List.getD_cons_succ]
            exact ih2 k (by simpa using Nat.lt_of_succ_lt_succ hj)
        · intro j hj
          cases j with
          | zero => simpa using hc
          | succ k =>
            simp only [List.getD_cons_succ]
            exact ih3 k (Nat.lt_of_succ_lt_succ hj)
      · have heq : argminAbs t (x :: y :: ys) = 0 := by
          simp only [argminAbs]
          rw [if_neg hc]
        rw [heq]
        refine ⟨by simp, ?_, ?_⟩
        · intro j hj
          cases j with
          | zero => simp
          | succ k =>
            simp only [List.getD_cons_zero, List.getD_cons_succ]
            exact le_trans (not_lt.mp hc)
              (ih2 k (by simpa using Nat.lt_of_succ_lt_succ hj))
        · intro j hj
          exact absurd hj (Nat.not_lt_zero j)

theorem optionAll_map_some (es : List ℚ) : optionAll (es.map some) = some es := by
  induction es with
  | nil => rfl
  | cons x xs ih => simp [optionAll, ih]

theorem defaultedElevs_map_some (es : List ℚ) (h : es ≠ []) :
    defaultedElevs (some (es.map some)) = es.map some := by
  simp only [defaultedElevs]
  rw [if_neg]
  rintro (hc | hc)
  · exact h (by simpa using hc)
  · cases es with
    | nil => exact h rfl
    | cons x xs => simp [Option.isNone] at hc

/-- C6: with an elevation concept and a non-empty request list, each requested
elevation is mapped to the vertical index minimizing the absolute difference
to `elevations(field)`, ties broken by the lowest index; a single request
collapses to a scalar index (dropping the vertical dimension), while two or
more requests (duplicates included) keep a vector of that many indices. -/
theorem c6_select_by_elevation_nearest (da : ElevDA) (es : List ℚ)
    (h1 : da.hasVertical = true) (h2 : es ≠ []) (h3 : da.elevs ≠ []) :
    (∀ k < es.length,
      argminAbs (es.getD k 0) da.elevs < da.elevs.length ∧
      (∀ j < da.elevs.length,
        |da.elevs.getD (argminAbs (es.getD k 0) da.elevs) 0 - es.getD k 0| ≤
          |da.elevs.getD j 0 - es.getD k 0|) ∧
      (∀ j < argminAbs (es.getD k 0) da.elevs,
        |da.elevs.getD (argminAbs (es.getD k 0) da.elevs) 0 - es.getD k 0| <
          |da.elevs.getD j 0 - es.getD k 0|)) ∧
    (es.length = 1 →
      select_by_elevation da (some (es.map some)) =
        some (.point (da.dataByLevel.getD (argminAbs (es.getD 0 0) da.elevs) []))) ∧
    (2 ≤ es.length →
      select_by_elevation da (some (es.map some)) =
        some (.levels
          (es.map (fun e => da.dataByLevel.getD (argminAbs e da.elevs) [])))) := by
  refine ⟨fun k _ => argminAbs_spec (es.getD k 0) da.elevs h3, ?_, ?_⟩
  · intro hlen
    obtain ⟨e, rfl⟩ : ∃ e, es = [e] := by
      cases es with
      | nil => simp at hlen
      | cons a l =>
        cases l with
        | nil => exact ⟨a, rfl⟩
        | cons b m => simp at hlen
    simp [select_by_elevation, h1, defaultedElevs, optionAll]
  · intro hlen
    have hne1 : ¬((es.map (fun e => argminAbs e da.elevs)).length = 1) := by
      rw [List.length_map]
      omega
    simp only [select_by_elevation, h1, defaultedElevs_map_some es h2,
      optionAll_map_some]
    rw [if_neg (by decide), if_neg hne1, List.map_map]
    rfl

/-- C6 witness: elevations `[0, 5, 9]`, duplicate request `[5, 5]`: both
requests resolve to vertical index 1, and the result keeps a vector of two
levels rather than collapsing to a scalar. -/
theorem c6_select_by_elevation_nearest_witness :
    select_by_elevation
        { hasVertical := true, elevs := [0, 5, 9], dataByLevel := [[1], [2], [3]] }
        (some [some 5, some 5]) =
      some (.levels [[2], [2]]) := by
  have h := (c6_select_by_elevation_nearest
    { hasVertical := true, elevs := [0, 5, 9], dataByLevel := [[1], [2], [3]] }
    [5, 5] rfl (by decide) (by decide)).2.2 (by decide)
  simp only [List.map] at h
  rw [h]
  norm_num [argminAbs]

/-- C7: a `None`, empty, or all-`None` elevation request behaves exactly like
requesting `[0.0]`. -/
theorem c7_default_elevation (da : ElevDA) (reqs : Option (List (Option ℚ)))
    (h : reqs = none ∨ reqs = some [] ∨
      ∃ l, reqs = some l ∧ l.all Option.isNone = true) :
    select_by_elevation da reqs = select_by_elevation da (some [some 0]) := by
  have hd : defaultedElevs reqs = defaultedElevs (some [some 0]) := by
    have hz : defaultedElevs (some [some 0]) = [some 0] := by
      simp [defaultedElevs, Option.isNone]
    rw [hz]
    rcases h with rfl | rfl | ⟨l, rfl, hall⟩
    · rfl
    · rfl
    · simp only [defaultedElevs]
      rw [if_pos (Or.inr hall)]
  unfold select_by_elevation
  rw [hd]

/-- C7 witness: the all-`None` request `[None, None]` selects the same result
as requesting `[0.0]`. -/
theorem c7_default_elevation_witness :
    select_by_elevation
        { hasVertical := true, elevs := [3, 1], dataByLevel := [[7], [8]] }
        (some [none, none]) =
      select_by_elevation
        { hasVertical := true, elevs := [3, 1], dataByLevel := [[7], [8]] }
        (some [some 0]) :=
  c7_default_elevation _ (some [none, none])
    (Or.inr (Or.inr ⟨[none, none], rfl, by decide⟩))

/-- C1 evaluation at a failing input: with the bbox selecting only node 4
(1-based), the element `(2,3,4)` references a selected node, so per the
spec the retained node set is `{1,2,3}` (0-based); the code instead filters
the vertex-slot rows of the `(3, nele)` connectivity and retains `{2,3}`,
dropping node 1 — and `TriangularGrid.filter_by_bbox` performs no filtering
at all, returning even the out-of-box nodes unchanged. -/
theorem c1_filter_by_bbox_eval :
    (fvcom_filter_by_bbox meshC1 daC1 bC1).map FilterResult.nodeIndUnique =
      some [2, 3] ∧
    claimRetainedNodes meshC1 daC1 bC1 = [1, 2, 3] ∧
    (fvcom_filter_by_bbox meshC1 daC1 bC1).map FilterResult.nodeIndUnique ≠
      some (claimRetainedNodes meshC1 daC1 bC1) ∧
    triangular_filter_by_bbox daC1 bC1 = daC1 := by
  have hsel : bboxSelectedNodes daC1.lon daC1.lat bC1 = [3] := by
    norm_num [bboxSelectedNodes, inRangeIdx, adjustLng, listMin, listMax,
      daC1, bC1, List.range_succ]
  have h1 : (fvcom_filter_by_bbox meshC1 daC1 bC1).map FilterResult.nodeIndUnique =
      some [2, 3] := by
    simp only [fvcom_filter_by_bbox, hsel]
    decide
  have h2 : claimRetainedNodes meshC1 daC1 bC1 = [1, 2, 3] := by
    simp only [claimRetainedNodes, hsel]
    decide
  refine ⟨h1, h2, ?_, rfl⟩
  rw [h1, h2]
  decide

/-- C10 evaluation at a failing input: the first application of
`filter_by_bbox` retains nodes `{1,2,3,4}`; re-filtering that subset with
the same bbox compares positional indices of the reduced array against the
full dataset's original 1-based connectivity, computes the retained set
`{0,1,2,3,4}`, and indexing the 4-node subset at index 4 raises — the
second application does not return the same retained node set. -/
theorem c10_filter_by_bbox_not_idempotent :
    (fvcom_filter_by_bbox meshC10 daC10 bC10).map FilterResult.da =
      some daC10Second ∧
    (fvcom_filter_by_bbox meshC10 daC10 bC10).map FilterResult.nodeIndUnique =
      some [1, 2, 3, 4] ∧
    fvcom_filter_by_bbox meshC10 daC10Second bC10 = none := by
  have hsel1 : bboxSelectedNodes daC10.lon daC10.lat bC10 = [3, 4] := by
    norm_num [bboxSelectedNodes, inRangeIdx, adjustLng, listMin, listMax,
      daC10, bC10, List.range_succ]
  have hsel2 : bboxSelectedNodes daC10Second.lon daC10Second.lat bC10 = [2, 3] := by
    norm_num [bboxSelectedNodes, inRangeIdx, adjustLng, listMin, listMax,
      daC10Second, bC10, List.range_succ]
  refine ⟨?_, ?_, ?_⟩ <;> simp only [fvcom_filter_by_bbox, hsel1, hsel2] <;> decide

/-- C2 evaluation at a failing input: query 1 filters an element-resident
array (bbox `bC1`) without passing a `render_context`, so it writes its
sliced `ntve`/`lng` into the shared default dict; query 2 then filters a
node-resident array the same way. The context query 2 returns still carries
query 1's `ntve = [2,1]` and `lng = [20,30]`, whereas a query-scoped fresh
context (second conjunct, starting from an empty dict) would leave both
unset. -/
theorem c2_render_context_not_query_scoped :
    (fvcom_filter_ctx_node meshC1 daC2 bC2
        (fvcom_filter_ctx_nele meshC1 bC1 emptyRenderCtx)).ntve = some [2, 1] ∧
    (fvcom_filter_ctx_node meshC1 daC2 bC2
        (fvcom_filter_ctx_nele meshC1 bC1 emptyRenderCtx)).lng = some [20, 30] ∧
    (fvcom_filter_ctx_node meshC1 daC2 bC2 emptyRenderCtx).ntve = none ∧
    (fvcom_filter_ctx_node meshC1 daC2 bC2 emptyRenderCtx).lng = none := by
  have hsel1 : bboxSelectedNodes meshC1.lon meshC1.lat bC1 = [3] := by
    norm_num [bboxSelectedNodes, inRangeIdx, adjustLng, listMin, listMax,
      meshC1, bC1, List.range_succ]
  have hsel2 : bboxSelectedNodes daC2.lon daC2.lat bC2 = [0] := by
    norm_num [bboxSelectedNodes, inRangeIdx, adjustLng, listMin, listMax,
      daC2, bC2, List.range_succ]
  refine ⟨?_, ?_, ?_, ?_⟩ <;>
    simp only [fvcom_filter_ctx_node, fvcom_filter_ctx_nele, hsel1, hsel2] <;>
    decide

theorem pointInTriQ_miss_5_7 : pointInTriQ 5 7 0 0 1 0 0 1 = false := by
  simp only [pointInTriQ, triSide]
  rw [decide_eq_false_iff_not]
  norm_num

theorem find_tri_ind_dsC3_miss :
    lat_lng_find_tri_ind 5 7 dsC3.lon dsC3.lat (fvcom_tessellate dsC3) = none := by
  show firstIdxTrue [pointInTriQ 5 7 0 0 1 0 0 1] = none
  rw [pointInTriQ_miss_5_7]
  rfl

theorem find_tri_ind_tdsC4_miss :
    lat_lng_find_tri_ind 5 7 tdsC4.lon tdsC4.lat (triangular_tessellate tdsC4) =
      none := by
  show firstIdxTrue [pointInTriQ 5 7 0 0 1 0 0 1] = none
  rw [pointInTriQ_miss_5_7]
  rfl

theorem normLngNode_5_dsC3 : normLngNode 5 dsC3.lon = 5 := by
  norm_num [normLngNode, listMin, dsC3]

theorem normLngNele_5_dsC3 : normLngNele 5 dsC3.lon = 5 := by
  norm_num [normLngNele, listMin, listMax, dsC3]

theorem normLngNele_5_tdsC4 : normLngNele 5 tdsC4.lon = 5 := by
  norm_num [normLngNele, listMin, listMax, tdsC4]

/-- C3 (amended): the node-indexed path always returns the query coordinates
as supplied (the code overwrites the single point's coordinate arrays before
normalizing the longitude); the element-indexed path returns the selected
element's own `lonc`/`latc` — element 0 on a miss, the containing element on
a hit — never the query point. -/
theorem c3_point_selection_coordinates (ds : FVCOMDs) (nsub : NodeSubset)
    (esub : NeleSubset) (lng lat : ℚ) :
    (sel_lat_lng_node ds nsub lng lat).lngCoord = lng ∧
    (sel_lat_lng_node ds nsub lng lat).latCoord = lat ∧
    (sel_lat_lng_nele ds esub lng lat).lngCoord =
      esub.lonc.getD
        ((lat_lng_find_tri_ind (normLngNele lng ds.lon) lat ds.lon ds.lat
          (fvcom_tessellate ds)).getD 0) 0 ∧
    (sel_lat_lng_nele ds esub lng lat).latCoord =
      esub.latc.getD
        ((lat_lng_find_tri_ind (normLngNele lng ds.lon) lat ds.lon ds.lat
          (fvcom_tessellate ds)).getD 0) 0 := by
  refine ⟨?_, ?_, ?_, ?_⟩
  · cases h : lat_lng_find_tri (normLngNode lng ds.lon) lat ds.lon ds.lat
        (fvcom_tessellate ds) <;>
      simp [sel_lat_lng_node, h]
  · cases h : lat_lng_find_tri (normLngNode lng ds.lon) lat ds.lon ds.lat
        (fvcom_tessellate ds) <;>
      simp [sel_lat_lng_node, h]
  · cases h : lat_lng_find_tri_ind (normLngNele lng ds.lon) lat ds.lon ds.lat
        (fvcom_tessellate ds) <;>
      simp [sel_lat_lng_nele, h]
  · cases h : lat_lng_find_tri_ind (normLngNele lng ds.lon) lat ds.lon ds.lat
        (fvcom_tessellate ds) <;>
      simp [sel_lat_lng_nele, h]

/-- C3 counterexample: on the element-indexed path, a query at `(5, 7)`
(outside the mesh) returns element 0's coordinates `(100, 50)`, not the
query coordinates. -/
theorem c3_counterexample :
    (sel_lat_lng_nele dsC3 esubC3 5 7).lngCoord = 100 ∧
    (sel_lat_lng_nele dsC3 esubC3 5 7).latCoord = 50 ∧
    ¬((100 : ℚ) = 5 ∧ (50 : ℚ) = 7) := by
  have hf : lat_lng_find_tri_ind (normLngNele 5 dsC3.lon) 7 dsC3.lon dsC3.lat
      (fvcom_tessellate dsC3) = none := by
    rw [normLngNele_5_dsC3]
    exact find_tri_ind_dsC3_miss
  refine ⟨?_, ?_, by decide⟩ <;> simp [sel_lat_lng_nele, hf, esubC3]

theorem tempArrays_mask_shape (ds : FVCOMDs) (sub : NodeSubset) :
    (nodeTempArrays ds sub).map (fun p => p.map (fun _ => (none : Option ℚ))) =
      sub.params.map (fun p => p.map (fun _ => none)) := by
  unfold nodeTempArrays
  cases h : sub.hasNele
  · simp
  · simp [List.map_map, Function.comp]

/-- C4: when the point-in-triangle search finds no containing triangle, both
the FVCOM node-indexed path and the TriangularGrid path fill every requested
parameter with NaN, keeping every other dimension's shape, and return
normally (the embedded selectors are total functions). -/
theorem c4_geometric_miss (ds : FVCOMDs) (nsub : NodeSubset) (lng lat : ℚ)
    (tds : TriDs) (tparams : List (List (List ℚ))) (tlng tlat : ℚ)
    (h1 : lat_lng_find_tri (normLngNode lng ds.lon) lat ds.lon ds.lat
      (fvcom_tessellate ds) = none)
    (h2 : lat_lng_find_tri_ind (normLngNele tlng tds.lon) tlat tds.lon tds.lat
      (triangular_tessellate tds) = none) :
    (sel_lat_lng_node ds nsub lng lat).vals =
      nsub.params.map (fun p => p.map (fun _ => none)) ∧
    (sel_lat_lng_tri tds tparams tlng tlat).vals =
      tparams.map (fun p => p.map (fun _ => none)) := by
  constructor
  · simp only [sel_lat_lng_node, h1]
    exact tempArrays_mask_shape ds nsub
  · simp only [sel_lat_lng_tri, h2]

/-- C4 witness: the query `(5, 7)` misses the single-triangle meshes; every
parameter value becomes NaN on both paths, shapes kept. -/
theorem c4_geometric_miss_witness :
    (sel_lat_lng_node dsC3 { hasNele := false, params := [[[1, 2]]] } 5 7).vals =
      [[none]] ∧
    (sel_lat_lng_tri tdsC4 [[[3]]] 5 7).vals = [[none]] := by
  have h1 : lat_lng_find_tri (normLngNode 5 dsC3.lon) 7 dsC3.lon dsC3.lat
      (fvcom_tessellate dsC3) = none := by
    rw [normLngNode_5_dsC3]
    simp [lat_lng_find_tri, find_tri_ind_dsC3_miss]
  have h2 : lat_lng_find_tri_ind (normLngNele 5 tdsC4.lon) 7 tdsC4.lon tdsC4.lat
      (triangular_tessellate tdsC4) = none := by
    rw [normLngNele_5_tdsC4]
    exact find_tri_ind_tdsC4_miss
  have h := c4_geometric_miss dsC3 { hasNele := false, params := [[[1, 2]]] } 5 7
    tdsC4 [[[3]]] 5 7 h1 h2
  exact ⟨by simpa using h.1, by simpa using h.2⟩

theorem sum_if_pos_filter (l : List Int) (f : Int → ℚ) :
    (l.map (fun k => if 0 < k then f k else 0)).sum =
      ((l.filter (fun k => decide (0 < k))).map f).sum := by
  induction l with
  | nil => rfl
  | cons x xs ih =>
    by_cases h : 0 < x
    · simp [List.filter_cons, h, ih]
    · simp [List.filter_cons, h, ih]

theorem getD_range_map (m n : ℕ) (f : ℕ → ℚ) (h : n < m) :
    ((List.range m).map f).getD n 0 = f n := by
  rw [List.getD_eq_getElem?_getD, List.getElem?_map, List.getElem?_range h]
  rfl

/-- C5: in the node-location path, element-resident (`nele`) parameters are
first reconciled onto nodes — each node's effective value is the sum of its
neighboring elements' values over the valid (index > 0) slots of `nbve`
divided by that node's `ntve` count — while node-resident parameters pass
through unchanged. -/
theorem c5_nele_reconciliation (ds : FVCOMDs) (sub : NodeSubset) (row : List ℚ)
    (n : ℕ) :
    (sub.hasNele = true →
      nodeTempArrays ds sub =
        sub.params.map (fun p => p.map (fun r => reconcileRow ds r))) ∧
    (sub.hasNele = false → nodeTempArrays ds sub = sub.params) ∧
    (n < ds.lon.length →
      (reconcileRow ds row).getD n 0 =
        (validNeighborVals ds row n).sum / ds.ntve.getD n 0) := by
  refine ⟨fun h => ?_, fun h => ?_, fun h => ?_⟩
  · unfold nodeTempArrays
    rw [if_pos h]
  · unfold nodeTempArrays
    rw [if_neg]
    simp [h]
  · unfold reconcileRow validNeighborVals
    rw [getD_range_map _ _ _ h]
    have hm : ds.nbve.map (fun slot =>
        if 0 < slot.getD n 0 then row.getD (slot.getD n 0 - 1).toNat 0 else 0) =
        (ds.nbve.map (fun slot => slot.getD n 0)).map
          (fun k => if 0 < k then row.getD (k - 1).toNat 0 else 0) := by
      rw [List.map_map]
      rfl
    rw [hm, sum_if_pos_filter]

/-- C5 witness: over `dsC3`, an element-resident parameter is replaced by its
node-reconciled values, a node-resident one is passed through, and the
reconciled value at node 0 is the valid-neighbor sum divided by `ntve[0]`. -/
theorem c5_nele_reconciliation_witness :
    nodeTempArrays dsC3 { hasNele := true, params := [[[10]]] } =
      [[reconcileRow dsC3 [10]]] ∧
    nodeTempArrays dsC3 { hasNele := false, params := [[[10]]] } = [[[10]]] ∧
    (reconcileRow dsC3 [10]).getD 0 0 =
      (validNeighborVals dsC3 [10] 0).sum / dsC3.ntve.getD 0 0 := by
  refine ⟨?_, ?_, ?_⟩
  · have h := (c5_nele_reconciliation dsC3
      { hasNele := true, params := [[[10]]] } [10] 0).1 rfl
    simpa using h
  · have h := (c5_nele_reconciliation dsC3
      { hasNele := false, params := [[[10]]] } [10] 0).2.1 rfl
    simpa using h
  · exact (c5_nele_reconciliation dsC3
      { hasNele := true, params := [[[10]]] } [10] 0).2.2 (by decide)
